import Mathlib

set_option maxRecDepth 1000000

/-!
Verification of the authentication / authorization core of a FastAPI
boilerplate backend.

The embedding follows `app/core/security.py`, `app/core/policies.py`,
`app/core/middlewares.py` and the user endpoints
(`app/api/v1/endpoints/users.py`, `app/api/v1/controllers/users.py`).

Conventions of the shallow embedding:
* Python byte strings (passwords after UTF-8 encoding, digests) are
  `List Nat`, one entry per byte.
* `hashlib.sha256` is embedded concretely (FIPS 180-4, all 32-bit
  arithmetic done in `Nat` with explicit `% 2 ^ 32`).
* The passlib bcrypt context (`pwd_context`) is an external library; it is
  modelled as an abstract salted hash satisfying its documented contract
  (a password verifies against its own hash; a different effective input
  does not verify).
* The jose JWT library is modelled by a token record that carries its
  claims together with the secret and algorithm it was signed with;
  decoding checks the secret/algorithm and the expiry against an explicit
  clock, which is how signature validity and expiry surface to the caller.
* Raised exceptions are `Except` errors; HTTP status codes are carried in
  the error value.
-/

namespace Sha256

/-- The modulus for 32-bit words. -/
def w32 : Nat := 4294967296

/-- Right rotation of a 32-bit word. -/
def rotr (n x : Nat) : Nat := ((x >>> n) ||| (x <<< (32 - n))) % w32

/-- The SHA-256 Ch function. -/
def ch (x y z : Nat) : Nat := (x &&& y) ^^^ ((x ^^^ 4294967295) &&& z)

/-- The SHA-256 Maj function. -/
def maj (x y z : Nat) : Nat := (x &&& y) ^^^ (x &&& z) ^^^ (y &&& z)

/-- The big Sigma-0 function. -/
def bigS0 (x : Nat) : Nat := rotr 2 x ^^^ rotr 13 x ^^^ rotr 22 x

/-- The big Sigma-1 function. -/
def bigS1 (x : Nat) : Nat := rotr 6 x ^^^ rotr 11 x ^^^ rotr 25 x

/-- The small sigma-0 function. -/
def smallS0 (x : Nat) : Nat := rotr 7 x ^^^ rotr 18 x ^^^ (x >>> 3)

/-- The small sigma-1 function. -/
def smallS1 (x : Nat) : Nat := rotr 17 x ^^^ rotr 19 x ^^^ (x >>> 10)

/-- The 64 SHA-256 round constants (FIPS 180-4, in decimal). -/
def kConsts : List Nat :=
  [1116352408, 1899447441, 3049323471, 3921009573,
   961987163, 1508970993, 2453635748, 2870763221,
   3624381080, 310598401, 607225278, 1426881987,
   1925078388, 2162078206, 2614888103, 3248222580,
   3835390401, 4022224774, 264347078, 604807628,
   770255983, 1249150122, 1555081692, 1996064986,
   2554220882, 2821834349, 2952996808, 3210313671,
   3336571891, 3584528711, 113926993, 338241895,
   666307205, 773529912, 1294757372, 1396182291,
   1695183700, 1986661051, 2177026350, 2456956037,
   2730485921, 2820302411, 3259730800, 3345764771,
   3516065817, 3600352804, 4094571909, 275423344,
   430227734, 506948616, 659060556, 883997877,
   958139571, 1322822218, 1537002063, 1747873779,
   1955562222, 2024104815, 2227730452, 2361852424,
   2428436474, 2756734187, 3204031479, 3329325298]

/-- Working state of the compression function: the eight 32-bit registers. -/
structure Hstate where
  a : Nat
  b : Nat
  c : Nat
  d : Nat
  e : Nat
  f : Nat
  g : Nat
  h : Nat
deriving DecidableEq

/-- The initial hash value H0 (FIPS 180-4, in decimal). -/
def initH : Hstate :=
  ⟨1779033703, 3144134277, 1013904242, 2773480762,
   1359893119, 2600822924, 528734635, 1541459225⟩

/-- Big-endian packing of four bytes into one 32-bit word, repeated. -/
def toWords : List Nat → List Nat
  | b0 :: b1 :: b2 :: b3 :: rest =>
      ((b0 <<< 24) ||| (b1 <<< 16) ||| (b2 <<< 8) ||| b3) :: toWords rest
  | _ => []

/-- One message-schedule extension step: appends word `n` computed from
words `n-2`, `n-7`, `n-15`, `n-16`. -/
def extendStep (ws : List Nat) : List Nat :=
  let n := ws.length
  ws ++ [(smallS1 (ws.getD (n - 2) 0) + ws.getD (n - 7) 0 +
          smallS0 (ws.getD (n - 15) 0) + ws.getD (n - 16) 0) % w32]

/-- Iterate the extension step. -/
def extendMany : Nat → List Nat → List Nat
  | 0, ws => ws
  | n + 1, ws => extendMany n (extendStep ws)

/-- Full 64-word message schedule from the 16 words of one block. -/
def schedule (ws : List Nat) : List Nat := extendMany 48 ws

/-- One compression round. -/
def round (s : Hstate) (ki wi : Nat) : Hstate :=
  let t1 := (s.h + bigS1 s.e + ch s.e s.f s.g + ki + wi) % w32
  let t2 := (bigS0 s.a + maj s.a s.b s.c) % w32
  ⟨(t1 + t2) % w32, s.a, s.b, s.c, (s.d + t1) % w32, s.e, s.f, s.g⟩

/-- Run the 64 rounds over the round constants and schedule words. -/
def rounds : Hstate → List Nat → List Nat → Hstate
  | s, ki :: ks, wi :: ws => rounds (round s ki wi) ks ws
  | s, _, _ => s

/-- Compress one 64-byte block into the chaining state. -/
def processBlock (s : Hstate) (block : List Nat) : Hstate :=
  let t := rounds s kConsts (schedule (toWords block))
  ⟨(s.a + t.a) % w32, (s.b + t.b) % w32, (s.c + t.c) % w32,
   (s.d + t.d) % w32, (s.e + t.e) % w32, (s.f + t.f) % w32,
   (s.g + t.g) % w32, (s.h + t.h) % w32⟩

/-- Split a byte list into 64-byte blocks; the fuel argument bounds the
number of blocks and is structurally decreasing (the list length is always
enough fuel, since every step consumes 64 bytes of a nonempty list). -/
def toBlocksAux : Nat → List Nat → List (List Nat)
  | 0, _ => []
  | _, [] => []
  | fuel + 1, x :: rest =>
      (x :: rest).take 64 :: toBlocksAux fuel ((x :: rest).drop 64)

/-- Split the padded message into 64-byte blocks. -/
def toBlocks (l : List Nat) : List (List Nat) := toBlocksAux l.length l

/-- The eight big-endian length bytes of the padding (bit length of the
message, modulo 2^64 as the byte extraction discards higher bits). -/
def lenBytes (len : Nat) : List Nat :=
  [((8 * len) >>> 56) &&& 255, ((8 * len) >>> 48) &&& 255,
   ((8 * len) >>> 40) &&& 255, ((8 * len) >>> 32) &&& 255,
   ((8 * len) >>> 24) &&& 255, ((8 * len) >>> 16) &&& 255,
   ((8 * len) >>> 8) &&& 255, (8 * len) &&& 255]

/-- FIPS 180-4 padding: a 0x80 byte, zeros up to 56 mod 64, then the
64-bit big-endian bit length. -/
def pad (msg : List Nat) : List Nat :=
  msg ++ [128] ++ List.replicate ((120 - (msg.length + 1) % 64) % 64) 0
      ++ lenBytes msg.length

/-- The four big-endian bytes of one 32-bit word. -/
def wordBytes (w : Nat) : List Nat :=
  [(w >>> 24) &&& 255, (w >>> 16) &&& 255, (w >>> 8) &&& 255, w &&& 255]

/-- Serialize the final state into the 32 digest bytes. -/
def digestBytes (s : Hstate) : List Nat :=
  wordBytes s.a ++ wordBytes s.b ++ wordBytes s.c ++ wordBytes s.d ++
  wordBytes s.e ++ wordBytes s.f ++ wordBytes s.g ++ wordBytes s.h

/-- SHA-256 of a byte string, as its 32 digest bytes
(embeds `hashlib.sha256(...).digest()`). -/
def sha256 (msg : List Nat) : List Nat :=
  digestBytes ((toBlocks (pad msg)).foldl processBlock initH)

/-- ASCII code of a lowercase hex digit. -/
def hexChar (n : Nat) : Nat := if n < 10 then 48 + n else 87 + n

/-- The two lowercase hex characters of one byte, as ASCII bytes. -/
def byteHex (b : Nat) : List Nat := [hexChar (b / 16), hexChar (b % 16)]

/-- Lowercase hex digest of a byte string, as its ASCII bytes
(embeds `hashlib.sha256(...).hexdigest()` followed by UTF-8 encoding,
which is the identity on this ASCII string). -/
def hexdigest (msg : List Nat) : List Nat := (sha256 msg).flatMap byteHex

end Sha256

/-! ## Password hashing (`app/core/security.py`) -/

/-- Bcrypt input limit from `app/core/security.py`: `BCRYPT_MAX_LENGTH = 72`. -/
def BCRYPT_MAX_LENGTH : Nat := 72

/-- Model of the external passlib bcrypt context `pwd_context`
(`CryptContext(schemes=["bcrypt"])`).  `hash` salts and hashes an input,
`verify` compares an input against a stored hash; the two laws are the
library's documented contract for inputs within the 72-byte limit: an
input verifies against its own hash, and an input that differs from the
hashed one does not verify. -/
structure BcryptModel where
  hash : List Nat → List Nat
  verify : List Nat → List Nat → Bool
  verify_hash_self : ∀ p, verify p (hash p) = true
  verify_hash_of_ne : ∀ p q, p ≠ q → verify p (hash q) = false

/-- Embeds `_prepare_password_for_bcrypt`: a password of at most 72 UTF-8
bytes is used directly; a longer one is replaced by its SHA-256 lowercase
hex digest (64 ASCII bytes).  The leading underscore of the Python name is
dropped. -/
def prepare_password_for_bcrypt (password : List Nat) : List Nat :=
  if password.length ≤ BCRYPT_MAX_LENGTH then password
  else Sha256.hexdigest password

/-- Embeds `verify_password`: normalize the plain password, then delegate
to `pwd_context.verify`. -/
def verify_password (B : BcryptModel) (plain_password hashed_password : List Nat) : Bool :=
  B.verify (prepare_password_for_bcrypt plain_password) hashed_password

/-- Embeds `get_password_hash`: normalize the password, then delegate to
`pwd_context.hash`. -/
def get_password_hash (B : BcryptModel) (password : List Nat) : List Nat :=
  B.hash (prepare_password_for_bcrypt password)

/-- A concrete instantiation of the bcrypt contract (identity hash,
equality comparison), used to evaluate the theorems on closed inputs. -/
def eqBcrypt : BcryptModel :=
  ⟨fun p => p, fun p q => p == q,
   fun p => by simp,
   fun p q hne => by simpa using hne⟩

/-! ## Users and the policy layer (`app/core/policies.py`)

`app/core/policies.py` imports `User` from `app.models.user` and `Gate`
from `app.core.gates`; neither module is present under `src/`. -/

/-- Modelled from the spec: `app/models/user.py` is not under `src/`.  The
data model section describes a user as an "identity record with email,
hashed password, active/role flags"; only `id` (the ownership identifier)
is consulted by the policy layer. -/
structure User where
  id : Int
  email : String
  hashed_password : String
  is_active : Bool
  is_superuser : Bool
deriving DecidableEq

/-- The hooks of the `Gate` class (`app/core/gates.py`, not under `src/`)
that the policy layer consults, kept abstract: every theorem about the
policy layer quantifies over them, so it holds for any implementation. -/
structure Gates where
  before : User → Bool
  can_view_users : User → Bool
  can_manage_users : User → Bool
  is_active : User → Bool

/-- Modelled from the spec: `Gate.owns_resource` lives in
`app/core/gates.py`, which is not under `src/`.  The spec defines the
ownership check as "acting user's identifier equals resource owner
identifier". -/
def Gate.owns_resource (user : User) (resource_user_id : Int) : Bool :=
  user.id == resource_user_id

namespace Policy

/-- Embeds `Policy.before`: delegate to the global gate hook. -/
def before (G : Gates) (user : User) : Bool := G.before user

/-- Embeds `Policy.view_any`: `if not Gate.before(user): return False`,
then `Gate.can_view_users(user)`. -/
def view_any (G : Gates) (user : User) : Bool :=
  if !G.before user then false
  else G.can_view_users user

/-- Embeds `Policy.view`: gate first, then ownership or view privilege. -/
def view (G : Gates) (user : User) (resource_user_id : Int) : Bool :=
  if !G.before user then false
  else Gate.owns_resource user resource_user_id || G.can_view_users user

/-- Embeds `Policy.create`: gate first, then the active check. -/
def create (G : Gates) (user : User) : Bool :=
  if !G.before user then false
  else G.is_active user

/-- Embeds `Policy.update`: gate first, then ownership or manage privilege. -/
def update (G : Gates) (user : User) (resource_user_id : Int) : Bool :=
  if !G.before user then false
  else Gate.owns_resource user resource_user_id || G.can_manage_users user

/-- Embeds `Policy.delete`: gate first, then ownership or manage privilege. -/
def delete (G : Gates) (user : User) (resource_user_id : Int) : Bool :=
  if !G.before user then false
  else Gate.owns_resource user resource_user_id || G.can_manage_users user

end Policy

/-! ## Raised exceptions -/

/-- Exceptions that the embedded code can raise: `HTTPException` with its
status code and detail string, and the interpreter-level `TypeError`. -/
inductive PyError where
  | typeError (msg : String)
  | httpException (status_code : Nat) (detail : String)
deriving DecidableEq

/-! ## `UserPolicy` (`app/core/policies.py`)

Every method of `UserPolicy` is a `@staticmethod` whose body calls
zero-argument `super()`.  CPython compiles such a call with the enclosing
class in the `__class__` cell and, at run time, takes the frame's first
argument as the object; it then requires that object to be an instance
(or, for a class object, a subclass) of `__class__`, raising `TypeError`
otherwise (CPython `Objects/typeobject.c`, `super_init` / `supercheck`).
In these static methods the first argument is `user`, a `User` model
instance, not a `UserPolicy`. -/

/-- The classes involved in the `super()` dispatch. -/
inductive PyCls where
  | objectCls
  | policyCls
  | userPolicyCls
  | userModelCls
deriving DecidableEq

/-- The subclass relation of the embedded class hierarchy:
`UserPolicy < Policy < object` and `User < object`. -/
def isSubclassOf (c d : PyCls) : Bool :=
  c == d ||
  (match c, d with
   | .userPolicyCls, .policyCls => true
   | _, .objectCls => true
   | _, _ => false)

/-- The error message CPython produces when `super()` receives an object
that is not an instance of the enclosing class. -/
def superTypeErrorMsg : String :=
  "super(type, obj): obj must be an instance or subtype of type"

/-- CPython semantics of a zero-argument `super()` call: `enclosing` is
the `__class__` cell, `firstArg` the class of the frame's first argument;
the call succeeds only when the first argument is an instance of a
subclass of the enclosing class. -/
def superZeroArg (enclosing firstArg : PyCls) : Except PyError Unit :=
  if isSubclassOf firstArg enclosing then Except.ok ()
  else Except.error (PyError.typeError superTypeErrorMsg)

namespace UserPolicy

/-- Embeds `UserPolicy.view_any`: `if not super().view_any(user): raise
HTTPException(403, ...)`; the `super()` call is evaluated first and its
exception propagates. -/
def view_any (G : Gates) (user : User) : Except PyError Bool := do
  let _ ← superZeroArg PyCls.userPolicyCls PyCls.userModelCls
  if !Policy.view_any G user then
    Except.error (PyError.httpException 403 "Not authorized to view users")
  else
    pure true

/-- Embeds `UserPolicy.view`. -/
def view (G : Gates) (user : User) (resource_user_id : Int) : Except PyError Bool := do
  let _ ← superZeroArg PyCls.userPolicyCls PyCls.userModelCls
  if !Policy.view G user resource_user_id then
    Except.error (PyError.httpException 403 "Not authorized to view this user")
  else
    pure true

/-- Embeds `UserPolicy.update`. -/
def update (G : Gates) (user : User) (resource_user_id : Int) : Except PyError Bool := do
  let _ ← superZeroArg PyCls.userPolicyCls PyCls.userModelCls
  if !Policy.update G user resource_user_id then
    Except.error (PyError.httpException 403 "Not authorized to update this user")
  else
    pure true

/-- Embeds `UserPolicy.delete`. -/
def delete (G : Gates) (user : User) (resource_user_id : Int) : Except PyError Bool := do
  let _ ← superZeroArg PyCls.userPolicyCls PyCls.userModelCls
  if !Policy.delete G user resource_user_id then
    Except.error (PyError.httpException 403 "Not authorized to delete this user")
  else
    pure true

end UserPolicy

/-- What `UserPolicy`'s methods were evidently intended to do (each method
body raises 403 exactly when the base `Policy` check fails, and returns
`True` otherwise): the behaviour obtained when the base check is reached
instead of the `super()` call raising. -/
def intendedUserPolicyCheck (base : Bool) (status : Nat) (detail : String) : Except PyError Bool :=
  if !base then Except.error (PyError.httpException status detail) else pure true

/-! ## JWT issuance and validation (`app/core/security.py`) -/

namespace settings

/-- Default from `app/core/config.py`. -/
def JWT_SECRET : String := "your-jwt-secret-key-here"

/-- Default from `app/core/config.py`. -/
def JWT_ALGORITHM : String := "HS256"

/-- Default from `app/core/config.py` (minutes). -/
def JWT_EXPIRATION : Int := 3600

end settings

/-- The claim set the code encodes: `{"exp": expire, "sub": str(subject)}`.
`sub` is optional because an arbitrary decoded payload may lack it
(`payload.get("sub")`). -/
structure JWTClaims where
  sub : Option String
  exp : Int
deriving DecidableEq

/-- Model of a jose JWT: the claims together with the secret and algorithm
the token was signed with.  A signature is valid for a verifying secret
exactly when the token was signed with that secret (and the algorithm is
among the accepted ones); a tampered token is one whose claims changed
without re-signing, i.e. a different `JWTToken` value. -/
structure JWTToken where
  claims : JWTClaims
  secret : String
  alg : String
deriving DecidableEq

/-- The jose error classes that `except JWTError` catches. -/
inductive JWTError where
  | invalidSignature
  | expiredSignature
deriving DecidableEq

/-- Model of `jose.jwt.encode`. -/
def jwtEncode (claims : JWTClaims) (secret alg : String) : JWTToken :=
  ⟨claims, secret, alg⟩

/-- Model of `jose.jwt.decode` at clock time `now`: verify the signature
(the token's signing secret and algorithm against the verifier's), then
reject an expired token (`exp` strictly in the past, zero leeway). -/
def jwtDecode (tok : JWTToken) (secret : String) (algs : List String) (now : Int) :
    Except JWTError JWTClaims :=
  if tok.secret == secret && algs.contains tok.alg then
    if tok.claims.exp < now then Except.error JWTError.expiredSignature
    else Except.ok tok.claims
  else Except.error JWTError.invalidSignature

/-- Embeds `create_access_token`: expiry is `now + expires_delta` when a
delta is given, otherwise `now + timedelta(minutes=settings.JWT_EXPIRATION)`
(the delta is in seconds), and the claims are
`{"exp": expire, "sub": str(subject)}` signed with the server secret and
declared algorithm. -/
def create_access_token (subject : Int) (expires_delta : Option Int) (now : Int) : JWTToken :=
  let expire : Int :=
    match expires_delta with
    | some d => now + d
    | none => now + settings.JWT_EXPIRATION * 60
  jwtEncode ⟨some (toString subject), expire⟩ settings.JWT_SECRET settings.JWT_ALGORITHM

/-- Embeds `User.get(db, id=user_id)` as called from `get_current_user`,
where `user_id` is the string subject claim matched against the integer
primary key; the database session is an association list of users. -/
def User.get (db : List User) (user_id : String) : Option User :=
  db.find? (fun u => toString u.id == user_id)

/-- Embeds `User.get(db, id=user_id)` as called from the delete endpoint,
where the path parameter is already an integer. -/
def User.get_by_int (db : List User) (user_id : Int) : Option User :=
  db.find? (fun u => u.id == user_id)

/-- Embeds `get_current_user`: decode the bearer token (a `JWTError`
becomes a 401), reject a payload without a subject claim (401), then
resolve the subject against the store (absence is a 404). -/
def get_current_user (db : List User) (token : JWTToken) (now : Int) :
    Except PyError User :=
  match jwtDecode token settings.JWT_SECRET [settings.JWT_ALGORITHM] now with
  | Except.error _ =>
      Except.error (PyError.httpException 401 "Could not validate credentials")
  | Except.ok payload =>
      match payload.sub with
      | none => Except.error (PyError.httpException 401 "Could not validate credentials")
      | some user_id =>
          match User.get db user_id with
          | none => Except.error (PyError.httpException 404 "User not found")
          | some user => Except.ok user

/-! ## In-memory rate limiting (`app/core/middlewares.py`) -/

namespace RateLimit

/-- Replace the value stored at the first occurrence of a key (the Python
`self.requests[client_ip].append(...)` update of an existing entry). -/
def setVal (m : List (String × List Int)) (ip : String) (ts : List Int) :
    List (String × List Int) :=
  match m with
  | [] => []
  | e :: rest =>
      if e.1 == ip then (ip, ts) :: rest
      else e :: setVal rest ip ts

/-- The pruning comprehension: drop every timestamp at least
`rate_limit_window` old from every entry. -/
def prune (window now : Int) (m : List (String × List Int)) :
    List (String × List Int) :=
  m.map (fun e => (e.1, e.2.filter (fun t => now - t < window)))

/-- Embeds the in-memory path of `RateLimitMiddleware.dispatch` (Redis
absent): prune all entries, then reject with 429 when the client already
has `rate_limit` timestamps in the window (recording nothing), otherwise
admit and record the current time.  Returns whether the request was
admitted, together with the new map. -/
def dispatch (rate_limit : Nat) (window : Int) (now : Int) (client_ip : String)
    (m : List (String × List Int)) : Bool × List (String × List Int) :=
  let pruned := prune window now m
  match pruned.lookup client_ip with
  | some ts =>
      if rate_limit ≤ ts.length then (false, pruned)
      else (true, setVal pruned client_ip (ts ++ [now]))
  | none => (true, pruned ++ [(client_ip, [now])])

/-- The timestamps currently recorded for a client. -/
def tsOf (m : List (String × List Int)) (ip : String) : List Int :=
  (m.lookup ip).getD []

end RateLimit

/-! ## Delete-user endpoint (`app/api/v1/endpoints/users.py` and
`app/api/v1/controllers/users.py`, identical control flow) -/

/-- Embeds the `delete_user` route handler: resolve the target id first
and raise 404 when no user matches; only then run the authorization
policy (`UserPolicy.delete(current_user, user.id)`), here an explicit
parameter so that theorems can quantify over it; the persistence and
cache side effects carry no decision logic. -/
def delete_user (db : List User) (policy : User → Int → Except PyError Bool)
    (current_user : User) (user_id : Int) : Except PyError User :=
  match User.get_by_int db user_id with
  | none => Except.error (PyError.httpException 404 "User not found")
  | some user => do
      let _ ← policy current_user user.id
      pure user

/-! ## Concrete instances used to evaluate the theorems -/

/-- A gate that rejects everything at the global hook while granting every
operation-specific privilege. -/
def denyGate : Gates :=
  ⟨fun _ => false, fun _ => true, fun _ => true, fun _ => true⟩

/-- A gate that passes the global hook and grants no privilege, so only
ownership can authorize. -/
def ownGate : Gates :=
  ⟨fun _ => true, fun _ => false, fun _ => false, fun _ => true⟩

/-- A sample user with id 5. -/
def user5 : User := ⟨5, "five@example.com", "hash5", true, false⟩

/-- A token signed with the server secret, subject "1", expiry 100. -/
def demoToken : JWTToken :=
  ⟨⟨some "1", 100⟩, settings.JWT_SECRET, settings.JWT_ALGORITHM⟩

/-! ## Theorems -/

/-- Test vector: the embedded SHA-256 maps "abc" to the FIPS 180-4
reference digest. -/
theorem sha256_abc_test_vector :
    Sha256.hexdigest [97, 98, 99] =
      (String.toList "ba7816bf8f01cfea414140de5dae2223b00361a396177a9cb410ff61f20015ad").map
        Char.toNat := by
  decide

/-- The digest always has 32 bytes. -/
theorem Sha256.length_sha256 (msg : List Nat) : (Sha256.sha256 msg).length = 32 := by
  simp [Sha256.sha256, Sha256.digestBytes, Sha256.wordBytes]

/-- Every serialized word byte fits in one byte. -/
theorem Sha256.mem_wordBytes_lt (w : Nat) : ∀ b ∈ Sha256.wordBytes w, b < 256 := by
  intro b hb
  simp only [Sha256.wordBytes, List.mem_cons, List.not_mem_nil, or_false] at hb
  have h255 : ∀ x : Nat, x &&& 255 < 256 := fun x =>
    Nat.lt_succ_of_le Nat.and_le_right
  rcases hb with h | h | h | h <;> (subst h; exact h255 _)

/-- Every digest byte fits in one byte. -/
theorem Sha256.mem_sha256_lt (msg : List Nat) :
    ∀ b ∈ Sha256.sha256 msg, b < 256 := by
  intro b hb
  simp only [Sha256.sha256, Sha256.digestBytes, List.mem_append] at hb
  rcases hb with ((((((h | h) | h) | h) | h) | h) | h) | h <;>
    exact Sha256.mem_wordBytes_lt _ b h

/-- The hex digest always has 64 characters. -/
theorem Sha256.length_hexdigest (msg : List Nat) :
    (Sha256.hexdigest msg).length = 64 := by
  have h : ∀ l : List Nat, (l.flatMap Sha256.byteHex).length = 2 * l.length := by
    intro l
    induction l with
    | nil => simp
    | cons a t ih => simp [Sha256.byteHex, ih]; omega
  simp [Sha256.hexdigest, h, Sha256.length_sha256]

/-- Every hex-digest character is a lowercase hex digit (ASCII). -/
theorem Sha256.mem_hexdigest_hex (msg : List Nat) :
    ∀ c ∈ Sha256.hexdigest msg, (48 ≤ c ∧ c ≤ 57) ∨ (97 ≤ c ∧ c ≤ 102) := by
  intro c hc
  simp only [Sha256.hexdigest, List.mem_flatMap] at hc
  obtain ⟨b, hb, hcb⟩ := hc
  have hblt : b < 256 := Sha256.mem_sha256_lt msg b hb
  simp only [Sha256.byteHex, List.mem_cons, List.not_mem_nil, or_false] at hcb
  have hrange : ∀ n : Nat, n ≤ 15 →
      (48 ≤ Sha256.hexChar n ∧ Sha256.hexChar n ≤ 57) ∨
      (97 ≤ Sha256.hexChar n ∧ Sha256.hexChar n ≤ 102) := by
    intro n hn
    unfold Sha256.hexChar
    split <;> omega
  rcases hcb with h | h <;> subst h
  · exact hrange _ (by omega)
  · exact hrange _ (by omega)

/-- C1: for every password, of any byte length, verification succeeds
against its own stored hash: both `get_password_hash` and
`verify_password` apply the same bcrypt-limit normalization (identity up
to 72 bytes, SHA-256 hex digest beyond), so the underlying comparison
sees the hash of the very input it is given. -/
theorem verify_password_roundtrip (B : BcryptModel) (p : List Nat) :
    verify_password B p (get_password_hash B p) = true := by
  unfold verify_password get_password_hash
  exact B.verify_hash_self _

/-- Evaluation of C1 on a concrete 73-byte password (the pre-hash path). -/
theorem verify_password_roundtrip_witness :
    verify_password eqBcrypt (List.replicate 73 97)
      (get_password_hash eqBcrypt (List.replicate 73 97)) = true :=
  verify_password_roundtrip eqBcrypt (List.replicate 73 97)

/-- C7: two over-limit passwords with distinct SHA-256 digests are
distinguished: each normalizes to its own hex digest, and the bcrypt
comparison rejects an input different from the hashed one. -/
theorem verify_password_distinguishes_over_limit (B : BcryptModel)
    (p1 p2 : List Nat) (h1 : 72 < p1.length) (h2 : 72 < p2.length)
    (hd : Sha256.hexdigest p1 ≠ Sha256.hexdigest p2) :
    verify_password B p2 (get_password_hash B p1) = false := by
  unfold verify_password get_password_hash prepare_password_for_bcrypt BCRYPT_MAX_LENGTH
  rw [if_neg (by omega), if_neg (by omega)]
  exact B.verify_hash_of_ne _ _ (Ne.symm hd)

/-- Evaluation of C7 on two 73-byte passwords differing only in their last
byte, i.e. only beyond the 72-byte limit; their digests differ. -/
theorem verify_password_distinguishes_over_limit_witness :
    verify_password eqBcrypt (List.replicate 72 97 ++ [98])
      (get_password_hash eqBcrypt (List.replicate 73 97)) = false :=
  verify_password_distinguishes_over_limit eqBcrypt
    (List.replicate 73 97) (List.replicate 72 97 ++ [98])
    (by simp) (by simp) (by decide)

/-- C9: for an over-limit password, the 64-character lowercase hex digest
itself also verifies against the stored hash — it is at most 72 bytes so
normalization passes it through unchanged, while the original normalizes
to it — so two distinct inputs are accepted by the same stored hash. -/
theorem sha256_hexdigest_second_preimage (B : BcryptModel) (p : List Nat)
    (hp : 72 < p.length) :
    verify_password B (Sha256.hexdigest p) (get_password_hash B p) = true ∧
    Sha256.hexdigest p ≠ p ∧
    (Sha256.hexdigest p).length = 64 ∧
    (∀ c ∈ Sha256.hexdigest p, (48 ≤ c ∧ c ≤ 57) ∨ (97 ≤ c ∧ c ≤ 102)) := by
  refine ⟨?_, ?_, Sha256.length_hexdigest p, Sha256.mem_hexdigest_hex p⟩
  · unfold verify_password get_password_hash prepare_password_for_bcrypt BCRYPT_MAX_LENGTH
    rw [if_pos (by rw [Sha256.length_hexdigest]; omega), if_neg (by omega)]
    exact B.verify_hash_self _
  · intro h
    have := congrArg List.length h
    rw [Sha256.length_hexdigest] at this
    omega

/-- Evaluation of C9 on a concrete 73-byte password. -/
theorem sha256_hexdigest_second_preimage_witness :
    verify_password eqBcrypt (Sha256.hexdigest (List.replicate 73 97))
      (get_password_hash eqBcrypt (List.replicate 73 97)) = true ∧
    Sha256.hexdigest (List.replicate 73 97) ≠ List.replicate 73 97 :=
  ⟨(sha256_hexdigest_second_preimage eqBcrypt (List.replicate 73 97) (by simp)).1,
   (sha256_hexdigest_second_preimage eqBcrypt (List.replicate 73 97) (by simp)).2.1⟩

/-- C2: when the global gate hook rejects a user, every policy operation
returns false, for every gate implementation of the operation-specific
hooks and every resource id — ownership and elevated privileges cannot
affect the outcome. -/
theorem policy_gate_rejection_short_circuits (G : Gates) (u : User)
    (h : G.before u = false) :
    Policy.view_any G u = false ∧
    Policy.create G u = false ∧
    ∀ rid : Int,
      Policy.view G u rid = false ∧
      Policy.update G u rid = false ∧
      Policy.delete G u rid = false := by
  refine ⟨?_, ?_, fun rid => ⟨?_, ?_, ?_⟩⟩ <;>
    simp [Policy.view_any, Policy.create, Policy.view, Policy.update, Policy.delete, h]

/-- Evaluation of C2: a gate whose global hook rejects but whose every
other hook grants, applied to an owner of the resource. -/
theorem policy_gate_rejection_short_circuits_witness :
    denyGate.before user5 = false ∧
    Policy.view_any denyGate user5 = false ∧
    Policy.update denyGate user5 5 = false ∧
    Policy.delete denyGate user5 5 = false :=
  ⟨rfl,
   (policy_gate_rejection_short_circuits denyGate user5 rfl).1,
   ((policy_gate_rejection_short_circuits denyGate user5 rfl).2.2 5).2.1,
   ((policy_gate_rejection_short_circuits denyGate user5 rfl).2.2 5).2.2⟩

/-- C3: for a user passing the global gate, update and delete grant
exactly on ownership (equal ids) or the elevated `can_manage_users`
privilege; the owner can always view; a non-owner without the privilege
is denied update and delete. -/
theorem policy_ownership_or_elevated (G : Gates) (u : User) (rid : Int)
    (h : G.before u = true) :
    Policy.update G u rid = (u.id == rid || G.can_manage_users u) ∧
    Policy.delete G u rid = (u.id == rid || G.can_manage_users u) ∧
    (u.id = rid → Policy.view G u rid = true) ∧
    (u.id ≠ rid → G.can_manage_users u = false →
      Policy.update G u rid = false ∧ Policy.delete G u rid = false) := by
  refine ⟨?_, ?_, ?_, ?_⟩
  · simp [Policy.update, Gate.owns_resource, h]
  · simp [Policy.delete, Gate.owns_resource, h]
  · intro hid
    simp [Policy.view, Gate.owns_resource, h, hid]
  · intro hid hcm
    constructor <;>
      simp [Policy.update, Policy.delete, Gate.owns_resource, h, hcm, hid]

/-- Evaluation of C3: with no elevated privilege, the id-5 user may update
their own resource and not the id-6 one. -/
theorem policy_ownership_or_elevated_witness :
    Policy.update ownGate user5 5 = true ∧
    Policy.update ownGate user5 6 = false ∧
    Policy.delete ownGate user5 6 = false ∧
    Policy.view ownGate user5 5 = true := by
  have h5 := policy_ownership_or_elevated ownGate user5 5 rfl
  have h6 := policy_ownership_or_elevated ownGate user5 6 rfl
  refine ⟨?_, ?_, ?_, ?_⟩
  · rw [h5.1]; decide
  · exact (h6.2.2.2 (by decide) rfl).1
  · exact (h6.2.2.2 (by decide) rfl).2
  · exact h5.2.2.1 rfl

/-- C6 (code bug): every `UserPolicy` operation raises `TypeError` from
its zero-argument `super()` call inside a `@staticmethod`, for every gate
implementation, user and resource id — it never returns `True` and never
raises the 403 authorization error its body was written to produce. -/
theorem userpolicy_staticmethod_super_typeerror (G : Gates) (u : User) (rid : Int) :
    UserPolicy.view_any G u = Except.error (PyError.typeError superTypeErrorMsg) ∧
    UserPolicy.view G u rid = Except.error (PyError.typeError superTypeErrorMsg) ∧
    UserPolicy.update G u rid = Except.error (PyError.typeError superTypeErrorMsg) ∧
    UserPolicy.delete G u rid = Except.error (PyError.typeError superTypeErrorMsg) :=
  ⟨rfl, rfl, rfl, rfl⟩

/-- C4: a token issued with subject S and no explicit expiry carries
exactly the claims sub = str(S) and exp = issuance time plus the default
expiry, signed with the server secret and declared algorithm; decoding
with the same secret yields those claims at any time before exp and fails
as expired at any time after exp. -/
theorem create_access_token_default_claims (S now t1 t2 : Int)
    (h1 : t1 < now + settings.JWT_EXPIRATION * 60)
    (h2 : now + settings.JWT_EXPIRATION * 60 < t2) :
    (create_access_token S none now).claims =
      ⟨some (toString S), now + settings.JWT_EXPIRATION * 60⟩ ∧
    (create_access_token S none now).secret = settings.JWT_SECRET ∧
    (create_access_token S none now).alg = settings.JWT_ALGORITHM ∧
    jwtDecode (create_access_token S none now) settings.JWT_SECRET
        [settings.JWT_ALGORITHM] t1 =
      Except.ok ⟨some (toString S), now + settings.JWT_EXPIRATION * 60⟩ ∧
    jwtDecode (create_access_token S none now) settings.JWT_SECRET
        [settings.JWT_ALGORITHM] t2 =
      Except.error JWTError.expiredSignature := by
  refine ⟨rfl, rfl, rfl, ?_, ?_⟩
  · unfold jwtDecode create_access_token jwtEncode
    rw [if_pos (by simp), if_neg (by simp; omega)]
  · unfold jwtDecode create_access_token jwtEncode
    rw [if_pos (by simp), if_pos (by simpa using h2)]

/-- Evaluation of C4 at subject 7, issuance time 0 (expiry 216000 s),
checking time 5 before and 300000 after. -/
theorem create_access_token_default_claims_witness :
    (create_access_token 7 none 0).claims =
      ⟨some (toString (7 : Int)), 0 + settings.JWT_EXPIRATION * 60⟩ ∧
    (create_access_token 7 none 0).secret = settings.JWT_SECRET ∧
    (create_access_token 7 none 0).alg = settings.JWT_ALGORITHM ∧
    jwtDecode (create_access_token 7 none 0) settings.JWT_SECRET
        [settings.JWT_ALGORITHM] 5 =
      Except.ok ⟨some (toString (7 : Int)), 0 + settings.JWT_EXPIRATION * 60⟩ ∧
    jwtDecode (create_access_token 7 none 0) settings.JWT_SECRET
        [settings.JWT_ALGORITHM] 300000 =
      Except.error JWTError.expiredSignature :=
  create_access_token_default_claims 7 0 5 300000 (by decide) (by decide)

/-- C5: `get_current_user` raises the 401 authentication error exactly
when the signature is invalid (wrong secret or algorithm), the token is
expired, or the subject claim is absent; when decoding succeeds with a
subject that matches no stored user it raises the 404 not-found error
instead. -/
theorem get_current_user_error_partition (db : List User) (token : JWTToken) (now : Int) :
    (get_current_user db token now =
        Except.error (PyError.httpException 401 "Could not validate credentials") ↔
      (token.secret ≠ settings.JWT_SECRET ∨ token.alg ≠ settings.JWT_ALGORITHM ∨
       token.claims.exp < now ∨ token.claims.sub = none)) ∧
    (∀ s, token.secret = settings.JWT_SECRET → token.alg = settings.JWT_ALGORITHM →
      ¬ token.claims.exp < now → token.claims.sub = some s →
      User.get db s = none →
      get_current_user db token now =
        Except.error (PyError.httpException 404 "User not found")) := by
  constructor
  · unfold get_current_user jwtDecode
    by_cases hs : token.secret = settings.JWT_SECRET
    · by_cases ha : token.alg = settings.JWT_ALGORITHM
      · by_cases he : token.claims.exp < now
        · simp [hs, ha, he]
        · cases hsub : token.claims.sub with
          | none => simp [hs, ha, he, hsub]
          | some s =>
              cases hget : User.get db s with
              | none => simp [hs, ha, he, hsub, hget]
              | some u => simp [hs, ha, he, hsub, hget]
      · simp [hs, ha]
    · simp [hs]
  · intro s hs ha he hsub hget
    unfold get_current_user jwtDecode
    simp [hs, ha, he, hsub, hget]

/-- Evaluation of C5: a well-signed unexpired token whose subject matches
no stored user yields the 404 error, and the same token with a wrong
secret yields the 401 error. -/
theorem get_current_user_error_partition_witness :
    get_current_user [] demoToken 0 =
      Except.error (PyError.httpException 404 "User not found") ∧
    get_current_user [] ⟨demoToken.claims, "other-secret", demoToken.alg⟩ 0 =
      Except.error (PyError.httpException 401 "Could not validate credentials") :=
  ⟨(get_current_user_error_partition [] demoToken 0).2 "1" rfl rfl
      (by decide) rfl rfl,
   (get_current_user_error_partition [] ⟨demoToken.claims, "other-secret", demoToken.alg⟩ 0).1.mpr
      (Or.inl (by decide))⟩

/-- Pruning commutes with lookup: the pruned map stores, for each client,
exactly the filtered timestamp list. -/
theorem RateLimit.lookup_prune (window now : Int) (ip : String)
    (m : List (String × List Int)) :
    (RateLimit.prune window now m).lookup ip =
      (m.lookup ip).map (fun ts => ts.filter (fun t => now - t < window)) := by
  induction m with
  | nil => simp [RateLimit.prune]
  | cons e rest ih =>
      simp only [RateLimit.prune, List.map_cons, List.lookup] at *
      cases h : ip == e.1 <;> simp [h, ih]

/-- Updating a present key stores the new value. -/
theorem RateLimit.lookup_setVal_self (ip : String) (ts : List Int)
    (m : List (String × List Int)) (h : (m.lookup ip).isSome) :
    (RateLimit.setVal m ip ts).lookup ip = some ts := by
  induction m with
  | nil => simp [List.lookup] at h
  | cons e rest ih =>
      simp only [RateLimit.setVal]
      cases he : e.1 == ip with
      | true =>
          have : ip == ip := by simp
          simp [List.lookup]
      | false =>
          have hne : ¬ ip == e.1 := by
            simp only [beq_iff_eq] at he ⊢
            exact fun hx => by simp [hx] at he
          simp only [List.lookup] at h
          rw [Bool.not_eq_true] at hne
          simp only [hne] at h
          simp only [List.lookup, hne]
          exact ih h

/-- Updating one key leaves every other key unchanged. -/
theorem RateLimit.lookup_setVal_ne (ip ip2 : String) (ts : List Int)
    (m : List (String × List Int)) (h : ip2 ≠ ip) :
    (RateLimit.setVal m ip ts).lookup ip2 = m.lookup ip2 := by
  induction m with
  | nil => simp [RateLimit.setVal]
  | cons e rest ih =>
      simp only [RateLimit.setVal]
      cases he : e.1 == ip with
      | true =>
          have he1 : e.1 = ip := by simpa using he
          have hf : (ip2 == ip) = false := beq_eq_false_iff_ne.mpr h
          simp only [List.lookup, he1, hf]
      | false =>
          simp only [List.lookup]
          cases h2 : ip2 == e.1 <;> simp [h2, ih]

/-- Appending a fresh key is found by lookup exactly when the key was
absent. -/
theorem RateLimit.lookup_append_self (ip : String) (v : List Int)
    (m : List (String × List Int)) (h : m.lookup ip = none) :
    (m ++ [(ip, v)]).lookup ip = some v := by
  induction m with
  | nil => simp [List.lookup]
  | cons e rest ih =>
      simp only [List.lookup, List.cons_append] at h ⊢
      cases he : ip == e.1 with
      | true => simp only [he] at h; exact absurd h (by simp)
      | false => simp only [he] at h ⊢; exact ih h

/-- Appending an entry for one key leaves every other key unchanged. -/
theorem RateLimit.lookup_append_ne (ip ip2 : String) (v : List Int)
    (m : List (String × List Int)) (h : ip2 ≠ ip) :
    (m ++ [(ip, v)]).lookup ip2 = m.lookup ip2 := by
  induction m with
  | nil =>
      have hf : (ip2 == ip) = false := beq_eq_false_iff_ne.mpr h
      simp [List.lookup, hf]
  | cons e rest ih =>
      simp only [List.lookup, List.cons_append]
      cases h2 : ip2 == e.1 <;> simp [h2, ih]

/-- C8: in the in-memory path, a request is rejected with 429 exactly when
the client already has at least `rate_limit` admitted timestamps within
the window; a rejection records nothing, an admission records exactly the
current time, and stale timestamps of every client are pruned before the
check. -/
theorem rate_limit_in_memory_dispatch (rate_limit : Nat) (window now : Int)
    (ip : String) (m : List (String × List Int)) (hpos : 0 < rate_limit) :
    ((RateLimit.dispatch rate_limit window now ip m).1 = false ↔
      rate_limit ≤ ((RateLimit.tsOf m ip).filter (fun t => now - t < window)).length) ∧
    RateLimit.tsOf (RateLimit.dispatch rate_limit window now ip m).2 ip =
      (if (RateLimit.dispatch rate_limit window now ip m).1 = true
       then (RateLimit.tsOf m ip).filter (fun t => now - t < window) ++ [now]
       else (RateLimit.tsOf m ip).filter (fun t => now - t < window)) ∧
    ∀ ip2, ip2 ≠ ip →
      RateLimit.tsOf (RateLimit.dispatch rate_limit window now ip m).2 ip2 =
        (RateLimit.tsOf m ip2).filter (fun t => now - t < window) := by
  have hp := RateLimit.lookup_prune window now ip m
  cases hm : m.lookup ip with
  | none =>
      have hlook : (RateLimit.prune window now m).lookup ip = none := by
        rw [hp, hm]; rfl
      have hres : RateLimit.dispatch rate_limit window now ip m =
          (true, RateLimit.prune window now m ++ [(ip, [now])]) := by
        simp only [RateLimit.dispatch, hlook]
      refine ⟨?_, ?_, ?_⟩
      · rw [hres]
        simp [RateLimit.tsOf, hm]
        omega
      · rw [hres]
        simp only [RateLimit.tsOf, hm, Option.getD_none, List.filter_nil]
        rw [RateLimit.lookup_append_self ip [now] _ hlook]
        simp
      · intro ip2 hne
        rw [hres]
        simp only [RateLimit.tsOf]
        rw [RateLimit.lookup_append_ne ip ip2 [now] _ hne,
          RateLimit.lookup_prune window now ip2 m]
        cases m.lookup ip2 <;> simp
  | some ts =>
      have hlook : (RateLimit.prune window now m).lookup ip =
          some (ts.filter (fun t => now - t < window)) := by
        rw [hp, hm]; rfl
      by_cases hfull : rate_limit ≤ (ts.filter (fun t => now - t < window)).length
      · have hres : RateLimit.dispatch rate_limit window now ip m =
            (false, RateLimit.prune window now m) := by
          simp only [RateLimit.dispatch, hlook, if_pos hfull]
        refine ⟨?_, ?_, ?_⟩
        · rw [hres]
          simp [RateLimit.tsOf, hm, hfull]
        · rw [hres]
          simp only [RateLimit.tsOf, hm, Option.getD_some]
          simp only [hlook, Option.getD_some]
          simp
        · intro ip2 hne
          rw [hres]
          simp only [RateLimit.tsOf]
          rw [RateLimit.lookup_prune window now ip2 m]
          cases m.lookup ip2 <;> simp
      · have hres : RateLimit.dispatch rate_limit window now ip m =
            (true, RateLimit.setVal (RateLimit.prune window now m) ip
              (ts.filter (fun t => now - t < window) ++ [now])) := by
          simp only [RateLimit.dispatch, hlook, if_neg hfull]
        refine ⟨?_, ?_, ?_⟩
        · rw [hres]
          simp [RateLimit.tsOf, hm, hfull]
        · rw [hres]
          simp only [RateLimit.tsOf, hm, Option.getD_some]
          rw [RateLimit.lookup_setVal_self _ _ _ (by rw [hlook]; rfl)]
          simp
        · intro ip2 hne
          rw [hres]
          simp only [RateLimit.tsOf]
          rw [RateLimit.lookup_setVal_ne ip ip2 _ _ hne,
            RateLimit.lookup_prune window now ip2 m]
          cases m.lookup ip2 <;> simp

/-- Evaluation of C8: with limit 1 and window 60, a client with one
admitted timestamp inside the window is rejected. -/
theorem rate_limit_in_memory_dispatch_witness :
    (RateLimit.dispatch 1 60 100 "c" [("c", [50, 10])]).1 = false := by
  have h := rate_limit_in_memory_dispatch 1 60 100 "c" [("c", [50, 10])] (by decide)
  exact h.1.mpr (by decide)

/-- C10: the delete-user endpoint resolves the target id first and raises
the 404 not-found error when it matches no stored user, for every policy
function — the authorization policy is never evaluated on that path — and
with the actual `UserPolicy.delete` policy an existing target never yields
the 404 error, so any authenticated caller can tell existing ids from
nonexistent ones. -/
theorem delete_user_not_found_before_policy (db : List User) (cu : User) (uid : Int) :
    (∀ policy : User → Int → Except PyError Bool,
      User.get_by_int db uid = none →
      delete_user db policy cu uid =
        Except.error (PyError.httpException 404 "User not found")) ∧
    (∀ (G : Gates) (u : User),
      User.get_by_int db uid = some u →
      delete_user db (UserPolicy.delete G) cu uid ≠
        Except.error (PyError.httpException 404 "User not found")) := by
  constructor
  · intro policy h
    simp only [delete_user, h]
  · intro G u h
    simp only [delete_user, h]
    intro hcontra
    simp [UserPolicy.delete, superZeroArg, isSubclassOf, Except.bind] at hcontra
    cases hcontra

/-- Evaluation of C10: with a store holding only the id-5 user, deleting
id 1 yields 404 under an arbitrary policy, and deleting id 5 does not
yield 404 even though the (broken) `UserPolicy.delete` never grants. -/
theorem delete_user_not_found_before_policy_witness :
    delete_user [user5] (UserPolicy.delete ownGate) user5 1 =
      Except.error (PyError.httpException 404 "User not found") ∧
    delete_user [user5] (UserPolicy.delete ownGate) user5 5 ≠
      Except.error (PyError.httpException 404 "User not found") :=
  ⟨(delete_user_not_found_before_policy [user5] user5 1).1
      (UserPolicy.delete ownGate) (by decide),
   (delete_user_not_found_before_policy [user5] user5 5).2 ownGate user5 (by decide)⟩
